import Mathlib

/-!
Shallow embedding of the omnii-addon session/auth lifecycle and scheduled
reporting engine (canonical refresh-token variant,
`src/omnii/omnii_connector/grpc_client.py`) and of the legacy credential
store (`src/omnii_connector/enrollment_store.py`), together with theorems
settling the frozen behavioural claims.

Python conventions carried over:
* dictionary entries that may be missing, and values that may be `None`,
  become `Option`;
* Python truthiness of strings (`None`/`""` falsy) and of integers
  (`None`/`0` falsy) is made explicit via `pyTruthyStr` / `pyTruthyInt`;
* `time.time()` is passed in as an explicit `now : Int` (epoch seconds);
* a raised-and-caught `grpc.RpcError` on an RPC becomes an explicit
  outcome value; network calls are parameters describing the server's
  behaviour per attempt.
-/

/-- Python truthiness of an optional string: `None` and `""` are falsy. -/
def pyTruthyStr (o : Option String) : Bool :=
  match o with
  | none => false
  | some s => ! s.isEmpty

/-- Python truthiness of an optional integer: `None` and `0` are falsy. -/
def pyTruthyInt (o : Option Int) : Bool :=
  match o with
  | none => false
  | some n => n ≠ 0

/-- The in-memory enrollment dictionary of the canonical (refresh-token)
variant, as built by `enroll` / loaded from the store:
`{instanceId, accessToken, refreshToken, accessTokenExpiresAt, grpcServerUrl}`. -/
structure EnrollmentData where
  instanceId : Option String
  accessToken : Option String
  refreshToken : Option String
  accessTokenExpiresAt : Option Int
  grpcServerUrl : Option String
deriving DecidableEq, Repr

/-- Modelled from the spec: secret artifact of the canonical variant's
credential store (`instanceId` + tokens, restrictive permissions).  The
canonical variant's `enrollment_store` module is not under `src/`
(only the legacy, single-token store is); spec §4.4 and §6 describe the
secret portion as holding the identity and the tokens. -/
structure CredentialArtifact where
  instanceId : Option String
  accessToken : Option String
  refreshToken : Option String
  accessTokenExpiresAt : Option Int
deriving DecidableEq, Repr

/-- Modelled from the spec: metadata artifact (`instanceId` + server
address, world-readable permissions). -/
structure MetadataArtifact where
  instanceId : Option String
  serverAddress : Option String
deriving DecidableEq, Repr

/-- Modelled from the spec: the two persisted artifacts of the canonical
credential store; `none` means the file is absent. -/
structure Store where
  credentials : Option CredentialArtifact
  metadata : Option MetadataArtifact
deriving DecidableEq, Repr

/-- Modelled from the spec: `Save(record)` writes the secret portion
(identity + tokens) and the metadata portion (identity + server address),
each replacing the previous artifact. -/
def save_enrollment_record (ed : EnrollmentData) (_st : Store) : Store :=
  { credentials := some { instanceId := ed.instanceId,
                          accessToken := ed.accessToken,
                          refreshToken := ed.refreshToken,
                          accessTokenExpiresAt := ed.accessTokenExpiresAt },
    metadata := some { instanceId := ed.instanceId,
                       serverAddress := ed.grpcServerUrl } }

/-- Mutable fields of `OmniiGrpcClient` relevant to the session/auth
lifecycle and the scheduler.  `stub` records whether a gRPC stub has been
created (`self.stub is not None`); the three `*_timer` flags record
whether a `threading.Timer` for that task kind is pending. -/
structure ClientState where
  enrollment_data : Option EnrollmentData
  stub : Bool
  access_token : Option String
  refresh_token : Option String
  access_token_expires_at : Option Int
  running : Bool
  last_full_info_time : Int
  heartbeat_timer : Bool
  update_report_timer : Bool
  stats_report_timer : Bool
  store : Store
deriving DecidableEq, Repr

/-- `RefreshTokenResponse` proto message: proto3 scalar fields are always
present, with `""`/`0` defaults. -/
structure RefreshTokenResponse where
  success : Bool
  access_token : String
  refresh_token : String
  access_token_expires_at : Int
  error : String
deriving DecidableEq, Repr

/-- `_token_expired`: `True` when `accessTokenExpiresAt` is falsy
(`None`/`0`), else `int(time.time()) >= int(expiresAt) - 30`. -/
def token_expired (s : ClientState) (now : Int) : Bool :=
  match s.access_token_expires_at with
  | none => true
  | some e => if e = 0 then true else decide (now ≥ e - 30)

/-- `refresh_access_token`: guarded by a live stub and a truthy refresh
token; `resp = none` models a raised `grpc.RpcError` (caught, returns
`False`).  On server-reported success it updates the in-memory tokens
(keeping the old refresh token when the response's is empty), updates the
enrollment dictionary and persists it via the credential store; on any
failure it changes nothing and returns `False`. -/
def refresh_access_token (s : ClientState) (resp : Option RefreshTokenResponse) :
    Bool × ClientState :=
  if ! s.stub || ! pyTruthyStr s.refresh_token then (false, s)
  else
    match resp with
    | none => (false, s)
    | some r =>
      if r.success then
        let newRefresh : Option String :=
          if ! r.refresh_token.isEmpty then some r.refresh_token else s.refresh_token
        let s1 : ClientState :=
          { s with access_token := some r.access_token,
                   refresh_token := newRefresh,
                   access_token_expires_at := some r.access_token_expires_at }
        match s1.enrollment_data with
        | none => (true, s1)
        | some ed =>
          let ed1 : EnrollmentData :=
            { ed with accessToken := s1.access_token,
                      refreshToken := s1.refresh_token,
                      accessTokenExpiresAt := s1.access_token_expires_at }
          (true, { s1 with enrollment_data := some ed1,
                           store := save_enrollment_record ed1 s1.store })
      else (false, s)

/-- Result of `_ensure_access_token`, recording whether a refresh-token
exchange was triggered. -/
structure EnsureResult where
  ok : Bool
  st : ClientState
  refreshed : Bool
deriving DecidableEq, Repr

/-- `_ensure_access_token`: refresh when no access token is cached
(Python-falsy) or the token is expired; otherwise succeed untouched. -/
def ensure_access_token (s : ClientState) (now : Int)
    (resp : Option RefreshTokenResponse) : EnsureResult :=
  if ! pyTruthyStr s.access_token || token_expired s now then
    let p := refresh_access_token s resp
    { ok := p.1, st := p.2, refreshed := true }
  else { ok := true, st := s, refreshed := false }

/-- gRPC status codes, with `unauthenticated` distinguished because it is
the only code `_call_with_auth` inspects. -/
inductive StatusCode where
  | unauthenticated
  | unavailable
  | deadlineExceeded
  | internal
  | unknown
deriving DecidableEq, Repr

/-- Outcome of one invocation of an RPC: a response, or a raised
`grpc.RpcError` carrying a status code. -/
inductive RpcResult (α : Type) where
  | ok (resp : α)
  | rpcErr (code : StatusCode)
deriving DecidableEq, Repr

/-- How `_call_with_auth` terminates: a response, a raised
`RuntimeError("Access token unavailable")`, or a propagated
`grpc.RpcError`. -/
inductive CallOutcome (α : Type) where
  | success (resp : α)
  | authUnavailable
  | rpcError (code : StatusCode)
deriving DecidableEq, Repr

/-- Trace of one `_call_with_auth` execution: its outcome, the number of
times the wrapped RPC was invoked, the number of refresh-token exchanges
attempted on the retry path, and the resulting client state. -/
structure CallTrace (α : Type) where
  outcome : CallOutcome α
  attempts : Nat
  retryRefreshes : Nat
  finalState : ClientState
deriving Repr

/-- `_call_with_auth`: ensure a valid access token (raising when that
fails), invoke the RPC; on a raised `UNAUTHENTICATED` error attempt one
refresh and, when it succeeds, retry once, propagating whatever the retry
does; on a failed refresh or a non-unauthenticated code re-raise the
original error.  `server n` is the server's behaviour on the n-th
invocation of the wrapped RPC; `ensureResp`/`retryResp` are the server's
behaviour on the refresh exchanges. -/
def call_with_auth {α : Type} (s : ClientState) (now : Int)
    (ensureResp retryResp : Option RefreshTokenResponse)
    (server : Nat → RpcResult α) : CallTrace α :=
  let e := ensure_access_token s now ensureResp
  if ! e.ok then { outcome := .authUnavailable, attempts := 0,
                   retryRefreshes := 0, finalState := e.st }
  else
    match server 0 with
    | .ok r => { outcome := .success r, attempts := 1,
                 retryRefreshes := 0, finalState := e.st }
    | .rpcErr c =>
      if c = .unauthenticated then
        let p := refresh_access_token e.st retryResp
        if p.1 then
          match server 1 with
          | .ok r => { outcome := .success r, attempts := 2,
                       retryRefreshes := 1, finalState := p.2 }
          | .rpcErr c2 => { outcome := .rpcError c2, attempts := 2,
                            retryRefreshes := 1, finalState := p.2 }
        else { outcome := .rpcError c, attempts := 1,
               retryRefreshes := 1, finalState := p.2 }
      else { outcome := .rpcError c, attempts := 1,
             retryRefreshes := 0, finalState := e.st }

/-- `SystemInfo` proto message attached to a full-info heartbeat (built
field-by-field from the Supervisor info dictionary). -/
structure SystemInfo where
  supervisor : String
  homeassistant : String
  hassos : String
  docker : String
  hostname : String
  operating_system : String
  machine : String
  arch : String
  channel : String
  st : String
deriving DecidableEq, Repr

/-- `HeartbeatRequest` proto message: client timestamp in milliseconds and
an optional full system-info payload. -/
structure HeartbeatRequest where
  client_timestamp : Int
  system_info : Option SystemInfo
deriving DecidableEq, Repr

/-- `HeartbeatResponse` proto message. -/
structure HeartbeatResponse where
  alive : Bool
  latency_ms : Int
deriving DecidableEq, Repr

/-- `UpdateReportResponse` / `StatsReportResponse` proto shape. -/
structure ReportResponse where
  accepted : Bool
  message : String
deriving DecidableEq, Repr

/-- `CoreStats` proto message (float fields abstracted to integers; no
claim depends on their values). -/
structure CoreStats where
  cpu_percent : Int
  memory_usage : Int
  memory_limit : Int
  memory_percent : Int
  network_tx : Int
  network_rx : Int
  blk_read : Int
  blk_write : Int
deriving DecidableEq, Repr

/-- Environment of one heartbeat firing: the current time, the Supervisor
info (absent on unavailability), and the server's behaviour on the
refresh exchanges and on the Heartbeat RPC attempts. -/
structure HbEnv where
  now : Int
  info : Option SystemInfo
  ensureResp : Option RefreshTokenResponse
  retryResp : Option RefreshTokenResponse
  server : Nat → RpcResult HeartbeatResponse

/-- Environment of one update-report firing (component list not modelled:
it only feeds the report payload). -/
structure ReportEnv where
  now : Int
  ensureResp : Option RefreshTokenResponse
  retryResp : Option RefreshTokenResponse
  server : Nat → RpcResult ReportResponse

/-- Environment of one stats-report firing; `stats = none` models a falsy
Supervisor stats dictionary. -/
structure StatsEnv where
  now : Int
  stats : Option CoreStats
  ensureResp : Option RefreshTokenResponse
  retryResp : Option RefreshTokenResponse
  server : Nat → RpcResult ReportResponse

/-- `send_heartbeat`: guarded by `running` and a live stub; builds the
request (attaching full info when requested and available), resets
`last_full_info_time` on every full-info firing, performs the
authenticated call, and on a response with `alive = False` stops the
session.  All raised errors are caught at this boundary.  Returns the
request sent (if the guard passed) and the new state. -/
def send_heartbeat (s : ClientState) (include_full_info : Bool) (env : HbEnv) :
    Option HeartbeatRequest × ClientState :=
  if ! s.running || ! s.stub then (none, s)
  else
    let req : HeartbeatRequest :=
      { client_timestamp := env.now * 1000,
        system_info := if include_full_info then env.info else none }
    let s1 : ClientState :=
      if include_full_info then { s with last_full_info_time := env.now } else s
    let t := call_with_auth s1 env.now env.ensureResp env.retryResp env.server
    match t.outcome with
    | .success r =>
      if ! r.alive then (some req, { t.finalState with running := false })
      else (some req, t.finalState)
    | .authUnavailable => (some req, t.finalState)
    | .rpcError _ => (some req, t.finalState)

/-- `_schedule_heartbeat`: arm the heartbeat timer only while running. -/
def schedule_heartbeat (s : ClientState) : ClientState :=
  if ! s.running then s else { s with heartbeat_timer := true }

/-- `_heartbeat_loop`: bail out when stopped; decide full info by the
300-second window since the last full-info send; send; reschedule only if
still running. -/
def heartbeat_loop (s : ClientState) (env : HbEnv) :
    Option HeartbeatRequest × ClientState :=
  if ! s.running then (none, s)
  else
    let include_full_info := decide (env.now - s.last_full_info_time ≥ 300)
    let p := send_heartbeat s include_full_info env
    if p.2.running then (p.1, schedule_heartbeat p.2) else (p.1, p.2)

/-- `send_update_report`: guarded by `running` and a live stub; performs
the authenticated ReportUpdates call, catching every raised error at this
boundary (the response only drives logging). -/
def send_update_report (s : ClientState) (env : ReportEnv) : ClientState :=
  if ! s.running || ! s.stub then s
  else (call_with_auth s env.now env.ensureResp env.retryResp env.server).finalState

/-- `_schedule_update_report`. -/
def schedule_update_report (s : ClientState) : ClientState :=
  if ! s.running then s else { s with update_report_timer := true }

/-- `_update_report_loop`. -/
def update_report_loop (s : ClientState) (env : ReportEnv) : Bool × ClientState :=
  if ! s.running then (false, s)
  else
    let s1 := send_update_report s env
    (true, if s1.running then schedule_update_report s1 else s1)

/-- `send_stats_report`: additionally skips the RPC when the Supervisor
stats are unavailable. -/
def send_stats_report (s : ClientState) (env : StatsEnv) : ClientState :=
  if ! s.running || ! s.stub then s
  else
    match env.stats with
    | none => s
    | some _ =>
      (call_with_auth s env.now env.ensureResp env.retryResp env.server).finalState

/-- `_schedule_stats_report`. -/
def schedule_stats_report (s : ClientState) : ClientState :=
  if ! s.running then s else { s with stats_report_timer := true }

/-- `_stats_report_loop`. -/
def stats_report_loop (s : ClientState) (env : StatsEnv) : Bool × ClientState :=
  if ! s.running then (false, s)
  else
    let s1 := send_stats_report s env
    (true, if s1.running then schedule_stats_report s1 else s1)

/-- `start_update_reporting`: immediate send, then arm the timer. -/
def start_update_reporting (s : ClientState) (env : ReportEnv) : ClientState :=
  if ! s.running then s
  else schedule_update_report (send_update_report s env)

/-- `start_stats_reporting`. -/
def start_stats_reporting (s : ClientState) (env : StatsEnv) : ClientState :=
  if ! s.running then s
  else schedule_stats_report (send_stats_report s env)

/-- `start_heartbeat`: immediate full-info heartbeat, arm the heartbeat
timer, then start the other two reporting tasks.  Returns the request of
the initial heartbeat send and the resulting state. -/
def start_heartbeat (s : ClientState) (hb : HbEnv) (ue : ReportEnv)
    (se : StatsEnv) : Option HeartbeatRequest × ClientState :=
  if ! s.running then (none, s)
  else
    let p := send_heartbeat s true hb
    let s2 := schedule_heartbeat p.2
    let s3 := start_update_reporting s2 ue
    (p.1, start_stats_reporting s3 se)

/-- One firing of a pending timer of one of the three task kinds. -/
inductive SchedEvent where
  | heartbeat (env : HbEnv)
  | updateReport (env : ReportEnv)
  | statsReport (env : StatsEnv)

/-- Dispatch one timer firing; the boolean records whether the task fired
(entered its loop body rather than bailing out on the `running` check). -/
def schedStep (s : ClientState) : SchedEvent → Bool × ClientState
  | .heartbeat env =>
    if ! s.running then (false, s)
    else
      let p := heartbeat_loop s env
      (true, p.2)
  | .updateReport env => update_report_loop s env
  | .statsReport env => stats_report_loop s env

/-- Run a sequence of timer firings, counting how many fired. -/
def runSched (s : ClientState) : List SchedEvent → Nat × ClientState
  | [] => (0, s)
  | e :: rest =>
    let p := schedStep s e
    let q := runSched p.2 rest
    ((if p.1 then 1 else 0) + q.1, q.2)

/-- Token fields as `connect_and_handshake` loads them from the enrollment
dictionary (before checking the refresh token); `stub := true` records
stub/channel construction (its only failure mode, a CA-file read error in
`_create_channel`, raises out of connect and is covered by the channel
factory model below). -/
def load_tokens (s : ClientState) (ed : EnrollmentData) : ClientState :=
  { s with stub := true,
           access_token := ed.accessToken,
           refresh_token := ed.refreshToken,
           access_token_expires_at := ed.accessTokenExpiresAt }

/-- `connect_and_handshake`: requires enrollment data; builds channel and
stub; caches the persisted tokens; fails on a Python-falsy refresh token;
ensures a valid access token; only then flips `running` to `True`. -/
def connect_and_handshake (s : ClientState) (now : Int)
    (resp : Option RefreshTokenResponse) : Bool × ClientState :=
  match s.enrollment_data with
  | none => (false, s)
  | some ed =>
    let s1 := load_tokens s ed
    if ! pyTruthyStr s1.refresh_token then (false, s1)
    else
      let e := ensure_access_token s1 now resp
      if ! e.ok then (false, e.st)
      else (true, { e.st with running := true })

/-! Legacy credential store (`src/omnii_connector/enrollment_store.py`).
Files hold the structured record that `json.dump` serialises; `none`
models an absent file. -/

/-- Contents of the legacy secret artifact `credentials.json`:
`{"instanceId": ..., "token": ...}` (values may be JSON `null`). -/
structure LegacyCredFile where
  instanceId : Option String
  token : Option String
deriving DecidableEq, Repr

/-- Contents of the legacy metadata artifact `enrollment.json`:
`{"instanceId": ..., "grpcServerUrl": ...}`. -/
structure LegacyMetaFile where
  instanceId : Option String
  grpcServerUrl : Option String
deriving DecidableEq, Repr

/-- The two files the legacy store touches under `/data`. -/
structure LegacyFS where
  credentials : Option LegacyCredFile
  enrollment : Option LegacyMetaFile
deriving DecidableEq, Repr

/-- The legacy enrollment dictionary: `instanceId`, session `token`,
`grpcServerUrl`. -/
structure LegacyEnrollmentData where
  instanceId : Option String
  token : Option String
  grpcServerUrl : Option String
deriving DecidableEq, Repr

/-- `save_enrollment_data`: write `{instanceId, token}` to the
restrictive-permission credentials file and `{instanceId, grpcServerUrl}`
to the world-readable enrollment file. -/
def save_enrollment_data (d : LegacyEnrollmentData) (_fs : LegacyFS) : LegacyFS :=
  { credentials := some { instanceId := d.instanceId, token := d.token },
    enrollment := some { instanceId := d.instanceId,
                         grpcServerUrl := d.grpcServerUrl } }

/-- `load_enrollment_data`: `None` when either file is absent; otherwise
merge the metadata dictionary with the token from the credentials file. -/
def load_enrollment_data (fs : LegacyFS) : Option LegacyEnrollmentData :=
  match fs.credentials, fs.enrollment with
  | some cred, some meta =>
    some { instanceId := meta.instanceId,
           token := cred.token,
           grpcServerUrl := meta.grpcServerUrl }
  | _, _ => none

/-! Channel factory (`_create_channel`), including the
trust-on-first-use raw TLS probe and the DER-to-PEM conversion done with
`base64.encodebytes`. -/

/-- The base64 alphabet. -/
def b64Alphabet : String :=
  "ABCDEFGHIJKLMNOPQRSTUVWXYZabcdefghijklmnopqrstuvwxyz0123456789+/"

/-- Character for a 6-bit group. -/
def b64Char (n : Nat) : Char :=
  b64Alphabet.toList.getD n 'A'

/-- Base64-encode a byte list, three bytes to four characters, padding the
final group with `=`. -/
def b64EncodeGroups : List UInt8 → List Char
  | [] => []
  | [a] =>
    let n := a.toNat
    [b64Char (n / 4), b64Char ((n % 4) * 16), '=', '=']
  | [a, b] =>
    let n := a.toNat * 256 + b.toNat
    [b64Char (n / 1024), b64Char ((n / 16) % 64), b64Char ((n % 16) * 4), '=']
  | a :: b :: c :: rest =>
    let n := a.toNat * 65536 + b.toNat * 256 + c.toNat
    b64Char (n / 262144) :: b64Char ((n / 4096) % 64) ::
      b64Char ((n / 64) % 64) :: b64Char (n % 64) :: b64EncodeGroups rest

/-- Split a byte list into the 57-byte lines `base64.encodebytes` uses. -/
def chunks57 (l : List UInt8) : List (List UInt8) :=
  if h : l = [] then []
  else l.take 57 :: chunks57 (l.drop 57)
termination_by l.length
decreasing_by
  simp only [List.length_drop]
  exact Nat.sub_lt (List.length_pos.mpr h) (by decide)

/-- `base64.encodebytes`: 76 encoded characters (57 input bytes) per line,
newline after every line. -/
def encodebytes (bs : List UInt8) : String :=
  String.join ((chunks57 bs).map (fun c => String.mk (b64EncodeGroups c) ++ "\n"))

/-- DER-to-PEM conversion as done inline in `_create_channel`. -/
def pem_encode (der : List UInt8) : String :=
  "-----BEGIN CERTIFICATE-----\n" ++ encodebytes der ++ "-----END CERTIFICATE-----\n"

/-- Result of the raw TLS probe: `failed` models any raised exception
(connection, handshake, timeout); otherwise the optional DER certificate
returned by `getpeercert(binary_form=True)`. -/
inductive ProbeResult where
  | ok (derCert : Option (List UInt8))
  | failed
deriving DecidableEq, Repr

/-- A constructed gRPC channel: secure with explicit root certificates
(`none` = library default trust) and channel options, or insecure. -/
inductive Channel where
  | secure (rootCertificates : Option String) (options : List (String × String))
  | insecure
deriving DecidableEq, Repr

/-- The channel options set whenever TLS verification is skipped. -/
def tofu_options : List (String × String) :=
  [("grpc.ssl_target_name_override", "omnii-grpc"),
   ("grpc.default_authority", "omnii-grpc")]

/-- `_create_channel`: read the CA file when configured (re-raising a read
failure); under skip-verify with no CA file, probe the server and either
pin its PEM-encoded leaf certificate or fall back to an insecure channel
when the probe raises; otherwise build a secure channel.  `caRead` is the
outcome of reading the configured CA file; `probe` the raw TLS probe. -/
def create_channel (tls_skip_verify : Bool) (tls_ca_cert : Option String)
    (caRead : Except String String) (probe : ProbeResult) :
    Except String Channel :=
  if pyTruthyStr tls_ca_cert then
    match caRead with
    | .error e => .error e
    | .ok pem =>
      if tls_skip_verify then .ok (.secure (some pem) tofu_options)
      else .ok (.secure (some pem) [])
  else if tls_skip_verify then
    match probe with
    | .failed => .ok .insecure
    | .ok der =>
      let roots : Option String :=
        match der with
        | some d => if d.isEmpty then none else some (pem_encode d)
        | none => none
      .ok (.secure roots tofu_options)
  else .ok (.secure none [])

/-! Concrete fixtures used by the witness theorems. -/

/-- An empty credential store. -/
def emptyStore : Store := { credentials := none, metadata := none }

/-- A sample persisted enrollment record. -/
def sampleEnrollment : EnrollmentData :=
  { instanceId := some "inst-1", accessToken := some "acc-0",
    refreshToken := some "ref-0", accessTokenExpiresAt := some 1000,
    grpcServerUrl := some "server.example:50051" }

/-- A connected, not-yet-running client with valid cached tokens. -/
def sampleState : ClientState :=
  { enrollment_data := some sampleEnrollment, stub := true,
    access_token := some "acc-0", refresh_token := some "ref-0",
    access_token_expires_at := some 1000, running := false,
    last_full_info_time := 0, heartbeat_timer := false,
    update_report_timer := false, stats_report_timer := false,
    store := emptyStore }

/-- The same client after `running` was set. -/
def runningState : ClientState := { sampleState with running := true }

/-- A successful refresh-token exchange response. -/
def okRefreshResponse : RefreshTokenResponse :=
  { success := true, access_token := "acc-1", refresh_token := "ref-1",
    access_token_expires_at := 2000, error := "" }

/-- A successful refresh response carrying an empty rotated token. -/
def emptyRefreshResponse : RefreshTokenResponse :=
  { success := true, access_token := "acc-1", refresh_token := "",
    access_token_expires_at := 2000, error := "" }

/-- A sample Supervisor system-info payload. -/
def sampleInfo : SystemInfo :=
  { supervisor := "2024.12.0", homeassistant := "2024.12.1", hassos := "13.2",
    docker := "27.2.0", hostname := "homeassistant",
    operating_system := "Home Assistant OS 13.2", machine := "generic-x86-64",
    arch := "amd64", channel := "stable", st := "running" }

/-- A heartbeat environment whose server replies `alive = false`. -/
def aliveFalseEnv : HbEnv :=
  { now := 100, info := none, ensureResp := none, retryResp := none,
    server := fun _ => .ok { alive := false, latency_ms := 0 } }

/-- A heartbeat environment whose server replies `alive = true`. -/
def aliveTrueEnv : HbEnv :=
  { now := 100, info := some sampleInfo, ensureResp := none, retryResp := none,
    server := fun _ => .ok { alive := true, latency_ms := 5 } }

/-- A later heartbeat environment (within the 300-second window). -/
def laterHbEnv : HbEnv :=
  { now := 200, info := some sampleInfo, ensureResp := none, retryResp := none,
    server := fun _ => .ok { alive := true, latency_ms := 5 } }

/-- A heartbeat environment fired past the 300-second window. -/
def lateHbEnv : HbEnv :=
  { now := 405, info := some sampleInfo, ensureResp := none, retryResp := none,
    server := fun _ => .ok { alive := true, latency_ms := 5 } }

/-- An update-report environment with an accepting server. -/
def sampleReportEnv : ReportEnv :=
  { now := 100, ensureResp := none, retryResp := none,
    server := fun _ => .ok { accepted := true, message := "" } }

/-- A stats-report environment with an accepting server. -/
def sampleStatsEnv : StatsEnv :=
  { now := 100, stats := none, ensureResp := none, retryResp := none,
    server := fun _ => .ok { accepted := true, message := "" } }

/-- A report server that rejects every attempt as unauthenticated. -/
def unauthServer : Nat → RpcResult ReportResponse :=
  fun _ => .rpcErr .unauthenticated

/-- A full-info heartbeat environment with no Supervisor payload and a
server that fails the RPC. -/
def failingHbEnv : HbEnv :=
  { now := 400, info := none, ensureResp := none, retryResp := none,
    server := fun _ => .rpcErr .unavailable }

/-! Frame lemmas: the token operations never touch the scheduler-facing
fields (`running`, `stub`, `last_full_info_time`). -/

theorem refresh_frame (s : ClientState) (resp : Option RefreshTokenResponse) :
    (refresh_access_token s resp).2.running = s.running ∧
    (refresh_access_token s resp).2.stub = s.stub ∧
    (refresh_access_token s resp).2.last_full_info_time = s.last_full_info_time := by
  unfold refresh_access_token
  split
  · exact ⟨rfl, rfl, rfl⟩
  · cases resp with
    | none => exact ⟨rfl, rfl, rfl⟩
    | some r =>
      by_cases hs : r.success
      · simp only [hs, if_true]
        split
        · exact ⟨rfl, rfl, rfl⟩
        · exact ⟨rfl, rfl, rfl⟩
      · simp only [hs, if_false]
        exact ⟨rfl, rfl, rfl⟩

theorem ensure_frame (s : ClientState) (now : Int)
    (resp : Option RefreshTokenResponse) :
    (ensure_access_token s now resp).st.running = s.running ∧
    (ensure_access_token s now resp).st.stub = s.stub ∧
    (ensure_access_token s now resp).st.last_full_info_time = s.last_full_info_time := by
  unfold ensure_access_token
  split
  · exact refresh_frame s resp
  · exact ⟨rfl, rfl, rfl⟩

theorem call_frame {α : Type} (s : ClientState) (now : Int)
    (er rr : Option RefreshTokenResponse) (server : Nat → RpcResult α) :
    (call_with_auth s now er rr server).finalState.running = s.running ∧
    (call_with_auth s now er rr server).finalState.stub = s.stub ∧
    (call_with_auth s now er rr server).finalState.last_full_info_time =
      s.last_full_info_time := by
  have he := ensure_frame s now er
  have hr := refresh_frame (ensure_access_token s now er).st rr
  have htr : ∀ t : ClientState, t = (refresh_access_token (ensure_access_token s now er).st rr).2 →
      t.running = s.running ∧ t.stub = s.stub ∧
      t.last_full_info_time = s.last_full_info_time := by
    intro t ht
    subst ht
    exact ⟨hr.1.trans he.1, hr.2.1.trans he.2.1, hr.2.2.trans he.2.2⟩
  unfold call_with_auth
  dsimp only
  split
  · exact he
  · cases server 0 with
    | ok r => exact he
    | rpcErr c =>
      by_cases hc : c = StatusCode.unauthenticated
      · simp only [hc, if_true, reduceIte]
        by_cases hp : (refresh_access_token (ensure_access_token s now er).st rr).1 = true
        · simp only [hp, if_true, reduceIte]
          cases server 1 with
          | ok r => exact htr _ rfl
          | rpcErr c2 => exact htr _ rfl
        · simp only [hp, if_false, Bool.false_eq_true, reduceIte]
          exact htr _ rfl
      · simp only [hc, if_false, reduceIte]
        exact he

/-- C1: for every cached token state whose expiry is recorded,
`_ensure_access_token` triggers a refresh-token exchange iff no access
token is cached (Python-falsy) or the current time is at or past
`accessTokenExpiresAt - 30`; it never refreshes when the token is cached
and `now < expiresAt - 30`. -/
theorem ensure_refresh_iff (s : ClientState) (now : Int)
    (resp : Option RefreshTokenResponse) (e : Int)
    (hexp : s.access_token_expires_at = some e) (hnow : 0 ≤ now) :
    ((ensure_access_token s now resp).refreshed = true) ↔
      (pyTruthyStr s.access_token = false ∨ e - 30 ≤ now) := by
  have htok : token_expired s now = true ↔ e - 30 ≤ now := by
    unfold token_expired
    rw [hexp]
    by_cases he : e = 0
    · subst he
      simp
      omega
    · simp [he]
  unfold ensure_access_token
  by_cases hc : pyTruthyStr s.access_token
  · by_cases ht : token_expired s now
    · have hle := htok.mp ht
      simp [hc, ht, hle]
    · have hgt : ¬ (e - 30 ≤ now) := fun hle => ht (htok.mpr hle)
      simp [hc, ht]
      omega
  · simp [hc]

/-- Witness for C1: at `sampleState` (token cached, expiry 1000) and
`now = 990`, which is past `expiresAt - 30`, a refresh is triggered. -/
theorem ensure_refresh_iff_witness :
    sampleState.access_token_expires_at = some 1000 ∧ (0 : Int) ≤ 990 ∧
    (((ensure_access_token sampleState 990 none).refreshed = true) ↔
      (pyTruthyStr sampleState.access_token = false ∨ (1000 : Int) - 30 ≤ 990)) :=
  ⟨rfl, by decide, ensure_refresh_iff sampleState 990 none 1000 rfl (by decide)⟩

/-- C2: `_call_with_auth` performs at most one refresh-and-retry per
call, for any server behaviour: never more than two RPC attempts and
never more than one retry-path refresh; when the first attempt fails
unauthenticated (with a valid token ensured), exactly one refresh is
attempted, and a failed refresh or a second RPC failure is propagated as
an RPC error, with no further refresh or retry. -/
theorem call_with_auth_single_retry {α : Type} (s : ClientState) (now : Int)
    (er rr : Option RefreshTokenResponse) (server : Nat → RpcResult α) :
    (call_with_auth s now er rr server).attempts ≤ 2 ∧
    (call_with_auth s now er rr server).retryRefreshes ≤ 1 ∧
    ((ensure_access_token s now er).ok = true →
      server 0 = RpcResult.rpcErr StatusCode.unauthenticated →
      (call_with_auth s now er rr server).retryRefreshes = 1 ∧
      ((refresh_access_token (ensure_access_token s now er).st rr).1 = false →
        (call_with_auth s now er rr server).outcome =
          CallOutcome.rpcError StatusCode.unauthenticated) ∧
      (∀ c2, (refresh_access_token (ensure_access_token s now er).st rr).1 = true →
        server 1 = RpcResult.rpcErr c2 →
        (call_with_auth s now er rr server).outcome = CallOutcome.rpcError c2)) := by
  unfold call_with_auth
  dsimp only
  by_cases hok : (ensure_access_token s now er).ok = true
  · simp only [hok, Bool.not_true, Bool.false_eq_true, if_false, reduceIte]
    cases hs0 : server 0 with
    | ok r => simp
    | rpcErr c =>
      by_cases hc : c = StatusCode.unauthenticated
      · subst hc
        simp only [if_true, reduceIte]
        by_cases hp : (refresh_access_token (ensure_access_token s now er).st rr).1 = true
        · simp only [hp, if_true, reduceIte]
          cases hs1 : server 1 with
          | ok r => simp [hp]
          | rpcErr c2 => simp [hp]
        · rw [Bool.not_eq_true] at hp
          simp [hp]
      · simp [hc]
  · rw [Bool.not_eq_true] at hok
    simp [hok]

/-- Witness for C2: against a server that always answers UNAUTHENTICATED
and a refresh exchange that succeeds, the call performs exactly one
retry-path refresh and ends in an RPC error. -/
theorem call_with_auth_single_retry_witness :
    (ensure_access_token runningState 100 none).ok = true ∧
    unauthServer 0 = RpcResult.rpcErr StatusCode.unauthenticated ∧
    (call_with_auth runningState 100 none (some okRefreshResponse)
        unauthServer).retryRefreshes = 1 ∧
    (call_with_auth runningState 100 none (some okRefreshResponse)
        unauthServer).outcome =
      CallOutcome.rpcError StatusCode.unauthenticated := by
  have h := call_with_auth_single_retry runningState 100 none
    (some okRefreshResponse) unauthServer
  refine ⟨by decide, rfl, (h.2.2 (by decide) rfl).1, ?_⟩
  exact (h.2.2 (by decide) rfl).2.2 StatusCode.unauthenticated (by decide) rfl

/-- C3: a heartbeat response with `alive = false` flips `running` to
false; and from any stopped state, no sequence of timer firings of the
three task kinds ever fires a task or changes the state (in particular,
no timer is ever re-armed). -/
theorem alive_false_stops_scheduler :
    (∀ (s : ClientState) (b : Bool) (env : HbEnv) (r : HeartbeatResponse),
        s.running = true → s.stub = true →
        pyTruthyStr s.access_token = true → token_expired s env.now = false →
        env.server 0 = RpcResult.ok r → r.alive = false →
        (send_heartbeat s b env).2.running = false) ∧
    (∀ (s : ClientState) (evs : List SchedEvent),
        s.running = false → runSched s evs = (0, s)) := by
  constructor
  · intro s b env r hrun hstub hc hexp hserver halive
    have hc1 : ∀ s1 : ClientState, s1.access_token = s.access_token →
        s1.access_token_expires_at = s.access_token_expires_at →
        ensure_access_token s1 env.now env.ensureResp =
          { ok := true, st := s1, refreshed := false } := by
      intro s1 h1 h2
      unfold ensure_access_token
      have : token_expired s1 env.now = false := by
        unfold token_expired at hexp ⊢
        rw [h2]
        exact hexp
      simp [pyTruthyStr] at hc ⊢
      rw [h1, this]
      simp [hc]
    have hcall : ∀ s1 : ClientState, s1.access_token = s.access_token →
        s1.access_token_expires_at = s.access_token_expires_at →
        call_with_auth s1 env.now env.ensureResp env.retryResp env.server =
          { outcome := CallOutcome.success r, attempts := 1,
            retryRefreshes := 0, finalState := s1 } := by
      intro s1 h1 h2
      unfold call_with_auth
      rw [hc1 s1 h1 h2]
      dsimp only
      rw [hserver]
      simp
    cases b with
    | false =>
      simp only [send_heartbeat, hrun, hstub, Bool.not_true, Bool.false_or,
        Bool.false_eq_true, if_false, reduceIte]
      rw [hcall _ rfl rfl]
      simp [halive]
    | true =>
      simp only [send_heartbeat, hrun, hstub, Bool.not_true, Bool.false_or,
        Bool.false_eq_true, if_false, reduceIte]
      rw [hcall { s with running := true, stub := true, last_full_info_time := env.now } rfl rfl]
      simp [halive]
  · intro s evs hs
    induction evs with
    | nil => rfl
    | cons e rest ih =>
      have hstep : schedStep s e = (false, s) := by
        cases e with
        | heartbeat env => simp [schedStep, hs]
        | updateReport env => simp [schedStep, update_report_loop, hs]
        | statsReport env => simp [schedStep, stats_report_loop, hs]
      simp [runSched, hstep, ih]

/-- Witness for C3: a concrete heartbeat with an `alive = false` reply
stops the session, and a stopped state survives a firing of each of the
three task kinds with no task fired and no state change. -/
theorem alive_false_stops_scheduler_witness :
    (send_heartbeat runningState false aliveFalseEnv).2.running = false ∧
    runSched sampleState
      [SchedEvent.updateReport sampleReportEnv,
       SchedEvent.heartbeat aliveTrueEnv,
       SchedEvent.statsReport sampleStatsEnv] = (0, sampleState) :=
  ⟨alive_false_stops_scheduler.1 runningState false aliveFalseEnv
      { alive := false, latency_ms := 0 } rfl rfl (by decide) (by decide) rfl rfl,
   alive_false_stops_scheduler.2 sampleState _ rfl⟩

/-- C4: a refresh-token exchange in an enrolled session: on
server-reported success the in-memory tokens are updated and the updated
enrollment record — including the new tokens — is persisted via the
credential store; on any failure the prior in-memory state and the
persisted record are unchanged and failure is returned. -/
theorem refresh_success_persists (s : ClientState)
    (resp : Option RefreshTokenResponse) (ed : EnrollmentData)
    (hed : s.enrollment_data = some ed) :
    (∀ r, resp = some r → r.success = true → s.stub = true →
       pyTruthyStr s.refresh_token = true →
       (refresh_access_token s resp).1 = true ∧
       (refresh_access_token s resp).2.access_token = some r.access_token ∧
       (refresh_access_token s resp).2.access_token_expires_at =
         some r.access_token_expires_at ∧
       (refresh_access_token s resp).2.refresh_token =
         (if ! r.refresh_token.isEmpty then some r.refresh_token
          else s.refresh_token) ∧
       (refresh_access_token s resp).2.store.credentials =
         some { instanceId := ed.instanceId,
                accessToken := some r.access_token,
                refreshToken :=
                  (if ! r.refresh_token.isEmpty then some r.refresh_token
                   else s.refresh_token),
                accessTokenExpiresAt := some r.access_token_expires_at }) ∧
    ((refresh_access_token s resp).1 = false →
       (refresh_access_token s resp).2 = s) := by
  constructor
  · rintro r rfl hsucc hstub hrt
    simp [refresh_access_token, hstub, hrt, hsucc, hed, save_enrollment_record]
  · by_cases hg : (! s.stub || ! pyTruthyStr s.refresh_token) = true
    · intro _
      simp [refresh_access_token, hg]
    · cases resp with
      | none =>
        intro _
        simp [refresh_access_token, hg]
      | some r =>
        by_cases hsucc : r.success
        · intro hfail
          exfalso
          simp [refresh_access_token, hg, hsucc, hed] at hfail
        · intro _
          simp [refresh_access_token, hg, hsucc]

/-- Witness for C4: a concrete successful refresh reports success and
persists the rotated tokens in the secret artifact. -/
theorem refresh_success_persists_witness :
    runningState.enrollment_data = some sampleEnrollment ∧
    (refresh_access_token runningState (some okRefreshResponse)).1 = true ∧
    (refresh_access_token runningState
        (some okRefreshResponse)).2.store.credentials =
      some { instanceId := some "inst-1", accessToken := some "acc-1",
             refreshToken := some "ref-1", accessTokenExpiresAt := some 2000 } := by
  have h := (refresh_success_persists runningState (some okRefreshResponse)
    sampleEnrollment rfl).1 okRefreshResponse rfl rfl rfl (by decide)
  exact ⟨rfl, h.1, by decide⟩

/-- C5: trust-on-first-use (`skip-verify` with no CA file): when the raw
TLS probe yields the server's leaf certificate, the channel pins exactly
that certificate, PEM-encoded, as the sole trusted root, with the server
name overridden to the fixed placeholder; when the probe fails for any
reason the factory returns an insecure channel instead of failing. -/
theorem tofu_trust (ca : Option String) (caRead : Except String String)
    (hca : pyTruthyStr ca = false) :
    create_channel true ca caRead ProbeResult.failed =
      Except.ok Channel.insecure ∧
    (∀ d : List UInt8, d ≠ [] →
       create_channel true ca caRead (ProbeResult.ok (some d)) =
         Except.ok (Channel.secure (some (pem_encode d)) tofu_options)) := by
  constructor
  · simp [create_channel, hca]
  · intro d hd
    simp [create_channel, hca, List.isEmpty_iff, hd]

/-- Witness for C5: with no CA file configured, a failed probe yields an
insecure channel and a one-byte certificate is pinned PEM-encoded. -/
theorem tofu_trust_witness :
    pyTruthyStr none = false ∧
    create_channel true none (Except.ok "unused") ProbeResult.failed =
      Except.ok Channel.insecure ∧
    create_channel true none (Except.ok "unused")
        (ProbeResult.ok (some [7])) =
      Except.ok (Channel.secure (some (pem_encode [7])) tofu_options) := by
  have h := tofu_trust none (Except.ok "unused") rfl
  exact ⟨rfl, h.1, h.2 [7] (by decide)⟩

/-- C7: credential-store round-trip for the legacy store: `Save` then
`Load` returns a record with the saved `instanceId` and server address
(and token); after deleting the secret credentials artifact, `Load`
returns absent rather than raising. -/
theorem store_round_trip (d : LegacyEnrollmentData) (fs : LegacyFS) :
    load_enrollment_data (save_enrollment_data d fs) =
      some { instanceId := d.instanceId, token := d.token,
             grpcServerUrl := d.grpcServerUrl } ∧
    load_enrollment_data
      { save_enrollment_data d fs with credentials := none } = none :=
  ⟨rfl, rfl⟩

/-- C8: `connect_and_handshake` on an enrolled client: a Python-falsy
(absent or empty) refresh token makes connect fail without ever setting
`running`; and whenever connect succeeds, the record's refresh token was
non-empty, `_ensure_access_token` succeeded, and `running` is set. -/
theorem connect_refresh_token_gate (s : ClientState) (now : Int)
    (resp : Option RefreshTokenResponse) (ed : EnrollmentData)
    (hed : s.enrollment_data = some ed) :
    (pyTruthyStr ed.refreshToken = false →
       (connect_and_handshake s now resp).1 = false ∧
       (connect_and_handshake s now resp).2.running = s.running) ∧
    ((connect_and_handshake s now resp).1 = true →
       pyTruthyStr ed.refreshToken = true ∧
       (ensure_access_token (load_tokens s ed) now resp).ok = true ∧
       (connect_and_handshake s now resp).2.running = true) := by
  have hrt : (load_tokens s ed).refresh_token = ed.refreshToken := rfl
  constructor
  · intro hfalse
    have hconn : connect_and_handshake s now resp = (false, load_tokens s ed) := by
      unfold connect_and_handshake
      rw [hed]
      dsimp only
      rw [hrt, hfalse]
      simp
    rw [hconn]
    exact ⟨rfl, rfl⟩
  · intro hok
    by_cases hrtok : pyTruthyStr ed.refreshToken = true
    · by_cases he : (ensure_access_token (load_tokens s ed) now resp).ok = true
      · refine ⟨hrtok, he, ?_⟩
        have hconn : connect_and_handshake s now resp =
            (true, { (ensure_access_token (load_tokens s ed) now resp).st with
                     running := true }) := by
          unfold connect_and_handshake
          rw [hed]
          dsimp only
          rw [hrt, hrtok]
          simp only [Bool.not_true, Bool.false_eq_true, if_false, reduceIte]
          rw [he]
          simp
        rw [hconn]
      · exfalso
        rw [Bool.not_eq_true] at he
        have hconn : (connect_and_handshake s now resp).1 = false := by
          unfold connect_and_handshake
          rw [hed]
          dsimp only
          rw [hrt, hrtok]
          simp only [Bool.not_true, Bool.false_eq_true, if_false, reduceIte]
          rw [he]
          simp
        rw [hok] at hconn
        exact absurd hconn (by simp)
    · exfalso
      rw [Bool.not_eq_true] at hrtok
      have hconn : (connect_and_handshake s now resp).1 = false := by
        unfold connect_and_handshake
        rw [hed]
        dsimp only
        rw [hrt, hrtok]
        simp
      rw [hok] at hconn
      exact absurd hconn (by simp)

/-- Witness for C8: connect succeeds and sets `running` on a record with
a non-empty refresh token, and fails without running on a record whose
refresh token is empty. -/
theorem connect_refresh_token_gate_witness :
    (connect_and_handshake sampleState 100 none).1 = true ∧
    (connect_and_handshake sampleState 100 none).2.running = true ∧
    (connect_and_handshake { sampleState with enrollment_data := some { sampleEnrollment with refreshToken := some "" } } 100 none).1 = false := by
  have h2 := (connect_refresh_token_gate sampleState 100 none
    sampleEnrollment rfl).2 (by decide)
  have h1 := (connect_refresh_token_gate { sampleState with enrollment_data := some { sampleEnrollment with refreshToken := some "" } } 100 none { sampleEnrollment with refreshToken := some "" } rfl).1 (by decide)
  exact ⟨by decide, h2.2.2, h1.1⟩

/-- C9: a refresh never replaces the held refresh token with an empty
value: a response with an empty rotated token leaves the prior refresh
token unchanged (on every path), and only a successful response with a
non-empty rotated token replaces it. -/
theorem refresh_token_not_clobbered (s : ClientState)
    (r : RefreshTokenResponse) :
    (r.refresh_token = "" →
       (refresh_access_token s (some r)).2.refresh_token = s.refresh_token) ∧
    (r.refresh_token ≠ "" → (refresh_access_token s (some r)).1 = true →
       (refresh_access_token s (some r)).2.refresh_token =
         some r.refresh_token) := by
  have hie : ∀ t : String, t = "" → t.isEmpty = true := by
    intro t ht
    rw [ht]
    rfl
  constructor
  · intro hempty
    by_cases hg : (! s.stub || ! pyTruthyStr s.refresh_token) = true
    · simp [refresh_access_token, hg]
    · by_cases hsucc : r.success
      · cases hed : s.enrollment_data with
        | none =>
          simp [refresh_access_token, hg, hsucc, hie r.refresh_token hempty, hed]
        | some ed =>
          simp [refresh_access_token, hg, hsucc, hie r.refresh_token hempty, hed]
      · simp [refresh_access_token, hg, hsucc]
  · intro hne hok
    have hne' : r.refresh_token.isEmpty = false := by
      rw [← Bool.not_eq_true, String.isEmpty_iff]
      exact hne
    by_cases hg : (! s.stub || ! pyTruthyStr s.refresh_token) = true
    · exfalso
      simp [refresh_access_token, hg] at hok
    · by_cases hsucc : r.success
      · cases hed : s.enrollment_data with
        | none => simp [refresh_access_token, hg, hsucc, hne', hed]
        | some ed => simp [refresh_access_token, hg, hsucc, hne', hed]
      · exfalso
        simp [refresh_access_token, hg, hsucc] at hok

/-- Witness for C9: a successful refresh with an empty rotated token
keeps `"ref-0"`; one with rotated token `"ref-1"` installs it. -/
theorem refresh_token_not_clobbered_witness :
    emptyRefreshResponse.refresh_token = "" ∧
    (refresh_access_token runningState
        (some emptyRefreshResponse)).2.refresh_token =
      runningState.refresh_token ∧
    (refresh_access_token runningState
        (some okRefreshResponse)).2.refresh_token =
      some okRefreshResponse.refresh_token := by
  have h := refresh_token_not_clobbered runningState emptyRefreshResponse
  have h2 := refresh_token_not_clobbered runningState okRefreshResponse
  exact ⟨rfl, h.1 rfl, h2.2 (by decide) (by decide)⟩

/-- Rescheduling the heartbeat timer never touches
`last_full_info_time`. -/
theorem schedule_heartbeat_last (t : ClientState) :
    (schedule_heartbeat t).last_full_info_time = t.last_full_info_time := by
  unfold schedule_heartbeat
  split
  · rfl
  · rfl

/-- What one `send_heartbeat` firing does, for a running client with a
stub: the request carries full info exactly when requested,
`last_full_info_time` is reset exactly when full info was requested
(whatever the call outcome and whether a payload was available), and the
stub survives. -/
theorem send_heartbeat_state (s : ClientState) (b : Bool) (env : HbEnv)
    (hrun : s.running = true) (hstub : s.stub = true) :
    (send_heartbeat s b env).1 =
      some { client_timestamp := env.now * 1000,
             system_info := if b then env.info else none } ∧
    (send_heartbeat s b env).2.last_full_info_time =
      (if b then env.now else s.last_full_info_time) ∧
    (send_heartbeat s b env).2.stub = true := by
  cases b with
  | false =>
    simp only [send_heartbeat, hrun, hstub, Bool.not_true, Bool.false_or,
      Bool.false_eq_true, if_false, reduceIte]
    have hcf := call_frame s env.now env.ensureResp env.retryResp env.server
    cases ho : (call_with_auth s env.now env.ensureResp env.retryResp
        env.server).outcome with
    | success r =>
      by_cases ha : r.alive
      · simp [ho, ha, hcf.2.1, hcf.2.2, hstub]
      · simp [ho, ha, hcf.2.1, hcf.2.2, hstub]
    | authUnavailable => simp [ho, hcf.2.1, hcf.2.2, hstub]
    | rpcError c => simp [ho, hcf.2.1, hcf.2.2, hstub]
  | true =>
    simp only [send_heartbeat, hrun, hstub, Bool.not_true, Bool.false_or,
      Bool.false_eq_true, if_false, reduceIte]
    have hcf := call_frame { s with running := true, stub := true, last_full_info_time := env.now } env.now env.ensureResp env.retryResp env.server
    cases ho : (call_with_auth { s with running := true, stub := true, last_full_info_time := env.now } env.now env.ensureResp env.retryResp env.server).outcome with
    | success r =>
      by_cases ha : r.alive
      · simp [ho, ha, hcf.2.1, hcf.2.2]
      · simp [ho, ha, hcf.2.1, hcf.2.2]
    | authUnavailable => simp [ho, hcf.2.1, hcf.2.2]
    | rpcError c => simp [ho, hcf.2.1, hcf.2.2]

/-- C6: heartbeat full-info cadence: with `lastFullInfoTime = 0`, the
first heartbeat (sent by `start_heartbeat`) carries the full system-info
payload; a loop firing less than 300 seconds after the last full-info
send carries only the client timestamp and leaves `lastFullInfoTime`
unchanged; a loop firing 300 or more seconds after it carries full info
again and resets `lastFullInfoTime` to the current time. -/
theorem heartbeat_cadence :
    (∀ (s : ClientState) (hb : HbEnv) (ue : ReportEnv) (se : StatsEnv)
        (i : SystemInfo),
       s.running = true → s.stub = true → hb.info = some i →
       s.last_full_info_time = 0 →
       (start_heartbeat s hb ue se).1 =
         some { client_timestamp := hb.now * 1000, system_info := some i }) ∧
    (∀ (s : ClientState) (hb : HbEnv),
       s.running = true → s.stub = true →
       hb.now - s.last_full_info_time < 300 →
       (heartbeat_loop s hb).1 =
         some { client_timestamp := hb.now * 1000, system_info := none } ∧
       (heartbeat_loop s hb).2.last_full_info_time = s.last_full_info_time) ∧
    (∀ (s : ClientState) (hb : HbEnv) (i : SystemInfo),
       s.running = true → s.stub = true → hb.info = some i →
       hb.now - s.last_full_info_time ≥ 300 →
       (heartbeat_loop s hb).1 =
         some { client_timestamp := hb.now * 1000, system_info := some i } ∧
       (heartbeat_loop s hb).2.last_full_info_time = hb.now) := by
  refine ⟨?_, ?_, ?_⟩
  · intro s hb ue se i hrun hstub hinfo _hlast
    have hs := send_heartbeat_state s true hb hrun hstub
    simp only [start_heartbeat, hrun, Bool.not_true, Bool.false_eq_true,
      if_false, reduceIte]
    rw [hs.1, hinfo]
    simp
  · intro s hb hrun hstub hlt
    have hinc : decide (hb.now - s.last_full_info_time ≥ 300) = false := by
      simp only [ge_iff_le, decide_eq_false_iff_not, not_le]
      omega
    have hs := send_heartbeat_state s false hb hrun hstub
    simp only [heartbeat_loop, hrun, Bool.not_true, Bool.false_eq_true,
      if_false, reduceIte, hinc]
    by_cases hr : (send_heartbeat s false hb).2.running = true
    · simp only [hr, if_true, reduceIte]
      refine ⟨by rw [hs.1]; simp, ?_⟩
      rw [schedule_heartbeat_last]
      simpa using hs.2.1
    · rw [Bool.not_eq_true] at hr
      simp only [hr, Bool.false_eq_true, if_false, reduceIte]
      refine ⟨by rw [hs.1]; simp, by simpa using hs.2.1⟩
  · intro s hb i hrun hstub hinfo hge
    have hinc : decide (hb.now - s.last_full_info_time ≥ 300) = true := by
      simpa using hge
    have hs := send_heartbeat_state s true hb hrun hstub
    simp only [heartbeat_loop, hrun, Bool.not_true, Bool.false_eq_true,
      if_false, reduceIte, hinc]
    by_cases hr : (send_heartbeat s true hb).2.running = true
    · simp only [hr, if_true, reduceIte]
      refine ⟨by rw [hs.1, hinfo]; simp, ?_⟩
      rw [schedule_heartbeat_last]
      simpa using hs.2.1
    · rw [Bool.not_eq_true] at hr
      simp only [hr, Bool.false_eq_true, if_false, reduceIte]
      refine ⟨by rw [hs.1, hinfo]; simp, by simpa using hs.2.1⟩

/-- Witness for C6: first heartbeat full at `lastFullInfoTime = 0`; a
loop firing 200s later is minimal; one firing 405s later is full and
resets the timestamp. -/
theorem heartbeat_cadence_witness :
    (start_heartbeat runningState aliveTrueEnv sampleReportEnv
        sampleStatsEnv).1 =
      some { client_timestamp := 100 * 1000, system_info := some sampleInfo } ∧
    (heartbeat_loop runningState laterHbEnv).1 =
      some { client_timestamp := 200 * 1000, system_info := none } ∧
    (heartbeat_loop runningState lateHbEnv).1 =
      some { client_timestamp := 405 * 1000, system_info := some sampleInfo } ∧
    (heartbeat_loop runningState lateHbEnv).2.last_full_info_time = 405 := by
  refine ⟨heartbeat_cadence.1 runningState aliveTrueEnv sampleReportEnv
    sampleStatsEnv sampleInfo rfl rfl rfl rfl, ?_, ?_, ?_⟩
  · exact (heartbeat_cadence.2.1 runningState laterHbEnv rfl rfl (by decide)).1
  · exact (heartbeat_cadence.2.2 runningState lateHbEnv sampleInfo rfl rfl rfl
      (by decide)).1
  · exact (heartbeat_cadence.2.2 runningState lateHbEnv sampleInfo rfl rfl rfl
      (by decide)).2

/-- C10: on every full-info heartbeat firing, `lastFullInfoTime` is reset
to the firing time — before the RPC, whatever the call outcome and even
when no system-info payload was available — so any next loop firing
within 300 seconds sends only a minimal heartbeat. -/
theorem full_info_time_reset (s : ClientState) (hb : HbEnv)
    (hrun : s.running = true) (hstub : s.stub = true) :
    (send_heartbeat s true hb).2.last_full_info_time = hb.now ∧
    (∀ hb2 : HbEnv, (send_heartbeat s true hb).2.running = true →
       hb2.now - hb.now < 300 →
       (heartbeat_loop (send_heartbeat s true hb).2 hb2).1 =
         some { client_timestamp := hb2.now * 1000, system_info := none }) := by
  have hs := send_heartbeat_state s true hb hrun hstub
  have hlast : (send_heartbeat s true hb).2.last_full_info_time = hb.now := by
    simpa using hs.2.1
  refine ⟨hlast, ?_⟩
  intro hb2 hrun2 hlt
  have hinc : decide (hb2.now -
      (send_heartbeat s true hb).2.last_full_info_time ≥ 300) = false := by
    rw [hlast]
    simp only [ge_iff_le, decide_eq_false_iff_not, not_le]
    omega
  have hs2 := send_heartbeat_state (send_heartbeat s true hb).2 false hb2
    hrun2 hs.2.2
  simp only [heartbeat_loop, hrun2, Bool.not_true, Bool.false_eq_true,
    if_false, reduceIte, hinc]
  by_cases hr : (send_heartbeat (send_heartbeat s true hb).2 false hb2).2.running = true
  · simp only [hr, if_true, reduceIte]
    rw [hs2.1]
    simp
  · rw [Bool.not_eq_true] at hr
    simp only [hr, Bool.false_eq_true, if_false, reduceIte]
    rw [hs2.1]
    simp

/-- Witness for C10: a full-info firing whose RPC fails and whose payload
is unavailable still resets `lastFullInfoTime` to 400, and the next loop
firing at 405 is minimal. -/
theorem full_info_time_reset_witness :
    (send_heartbeat runningState true failingHbEnv).2.last_full_info_time = 400 ∧
    (heartbeat_loop (send_heartbeat runningState true failingHbEnv).2
        lateHbEnv).1 =
      some { client_timestamp := 405 * 1000, system_info := none } := by
  have h := full_info_time_reset runningState failingHbEnv rfl rfl
  exact ⟨h.1, h.2 lateHbEnv (by decide) (by decide)⟩
